import Mathlib

/-!
Shallow embedding of clerkb's PoA lock script (src/c/poa.c) and proofs about it.

Conventions used throughout:
* Byte buffers are `List Nat`, one element per byte.
* Machine integers are `Nat`.  Wherever the C code's fixed-width arithmetic can
  wrap around, the wrap is written explicitly: `% 18446744073709551616` for
  `uint64_t` and `% 4294967296` for `uint32_t`.
* Return codes are `Int`, with the same numeric values as in the C code.
* CKB syscalls are replaced by explicit, immutable transaction data (`Env`):
  a cell's type-script read (`ckb_load_cell_by_field` with
  `CKB_CELL_FIELD_TYPE`) is a `TypeRead` value; iterating cell indices until
  `CKB_INDEX_OUT_OF_BOUND` becomes structural recursion over a list; the
  host script's molecule-encoded args are given directly as the byte list
  they decode to.
-/

set_option maxRecDepth 16384

-- Return codes, from ckb_syscalls.h and the defines at the top of poa.c.
def CKB_SUCCESS : Int := 0
def CKB_INDEX_OUT_OF_BOUND : Int := 1
def ERROR_TRANSACTION : Int := -1
def ERROR_ENCODING : Int := -2

def IDENTITY_SIZE : Nat := 32
def POA_BUFFER_SIZE : Nat := 16384

-- Little-endian field reads.  The C code reads fields with raw pointer casts
-- over a packed byte buffer on a little-endian target (CKB-VM is RISC-V LE),
-- which is exactly a little-endian byte-by-byte decode.
def u16le (b : List Nat) (off : Nat) : Nat :=
  b.getD off 0 + 256 * b.getD (off + 1) 0

def u32le (b : List Nat) (off : Nat) : Nat :=
  b.getD off 0 + 256 * b.getD (off + 1) 0 + 65536 * b.getD (off + 2) 0 +
    16777216 * b.getD (off + 3) 0

def u64le (b : List Nat) (off : Nat) : Nat :=
  u32le b off + 4294967296 * u32le b (off + 4)

-- PoASetup, poa.c lines 50-61.  The `_source_data`/`_source_length` bookkeeping
-- fields are represented by keeping `identities` as the byte list starting at
-- offset 12 of the source buffer.
structure PoASetup where
  interval_uses_seconds : Bool
  identity_size : Nat
  aggregator_number : Nat
  aggregator_change_threshold : Nat
  subblock_intervals : Nat
  subblocks_per_interval : Nat
  identities : List Nat
deriving DecidableEq

-- parse_poa_setup, poa.c lines 63-94.  The C code fills the output record and
-- then validates it; the record is only observable when CKB_SUCCESS is
-- returned, so filling and validation commute.
def parse_poa_setup (d : List Nat) : Except Int PoASetup :=
  if d.length < 12 then Except.error ERROR_ENCODING
  else if IDENTITY_SIZE < d.getD 1 0 then Except.error ERROR_ENCODING
  else if d.getD 2 0 < d.getD 3 0 then Except.error ERROR_ENCODING
  else if d.length ≠ 12 + d.getD 1 0 * d.getD 2 0 then Except.error ERROR_ENCODING
  else Except.ok
    { interval_uses_seconds := (d.getD 0 0 &&& 1) == 1
      identity_size := d.getD 1 0
      aggregator_number := d.getD 2 0
      aggregator_change_threshold := d.getD 3 0
      subblock_intervals := u32le d 4
      subblocks_per_interval := u32le d 8
      identities := d.drop 12 }

-- The identity slice `&identity_buffer[i * identity_size]` read for
-- `identity_size` bytes by memcmp.
def identityAt (buffer : List Nat) (size i : Nat) : List Nat :=
  (buffer.drop (i * size)).take size

-- The inner for-loop of validate_consensus_signing, poa.c lines 115-124:
-- scan identity indices upward from `fi` for at most `fuel` steps and return
-- the first index whose mask bit is clear and whose identity bytes equal the
-- input's lock hash prefix; return `fi + fuel` (= identity_count at the top
-- call) when none is found.  The C mask is `uint64_t mask[4]`, with the bit
-- for identity i read as `(mask[i / 64] >> (i % 64)) & 1` (a well-defined
-- uint64_t shift); since the four words hold disjoint 64-bit ranges, they
-- are represented as the single natural number whose global bit
-- 64 * (i / 64) + (i % 64) = i is bit i % 64 of word i / 64, so the read is
-- `mask.testBit fi`.
def find_uncredited (hash buffer : List Nat) (size mask : Nat) : Nat → Nat → Nat
  | fi, 0 => fi
  | fi, fuel + 1 =>
    if (!(mask.testBit fi)) && (List.take size hash == identityAt buffer size fi) then fi
    else find_uncredited hash buffer size mask (fi + 1) fuel

-- The value OR-ed into the 64-bit mask word by the write
-- `mask[fi / 64] |= 1 << (fi % 64)` at poa.c line 131, for shift amount
-- s = fi % 64.  The shifted `1` is a 32-bit int, not a uint64_t, so on the
-- RV64 CKB-VM target compilers emit a 32-bit shift (sllw): the shift amount
-- is reduced mod 32 and the 32-bit result is sign-extended when widened to
-- uint64_t.  Hence for s % 32 < 31 the value is 2 ^ (s % 32) (the WRONG word
-- bit whenever s >= 32), and for s % 32 = 31 the 32-bit result is INT_MIN,
-- which sign-extends to 0xFFFFFFFF80000000 (bits 31..63 of the word).  In
-- particular bit 32 of a word is only ever set spuriously, never by the
-- write for its own identity.
def mask_bit_word_value (s : Nat) : Nat :=
  if s % 32 = 31 then 18446744071562067968 else 2 ^ (s % 32)

-- One mask credit `mask[fi / 64] |= 1 << (fi % 64)`, on the single-number
-- representation: the word value is shifted into the word's global bit range.
def mask_credit (mask fi : Nat) : Nat :=
  mask ||| (mask_bit_word_value (fi % 64)) <<< (64 * (fi / 64))

-- The outer while-loop of validate_consensus_signing, poa.c lines 103-134.
-- `hashes` is the sequence of lock hashes of the transaction's input cells
-- (one successful `ckb_load_cell_by_field(.., CKB_CELL_FIELD_LOCK_HASH)` per
-- input; the loop ends at CKB_INDEX_OUT_OF_BOUND, i.e. list end).  `found`
-- is a uint8_t: `found++` wraps mod 256, and the comparison with the
-- threshold happens after the increment.
def vcs_loop (buffer : List Nat) (size count threshold : Nat) :
    List (List Nat) → Nat → Nat → Int
  | [], _, _ => ERROR_ENCODING
  | hash :: rest, mask, found =>
    if find_uncredited hash buffer size mask 0 count < count then
      if (found + 1) % 256 = threshold then CKB_SUCCESS
      else vcs_loop buffer size count threshold rest
        (mask_credit mask (find_uncredited hash buffer size mask 0 count)) ((found + 1) % 256)
    else vcs_loop buffer size count threshold rest mask found

-- validate_consensus_signing, poa.c lines 96-137.
def validate_consensus_signing (buffer : List Nat) (size count threshold : Nat)
    (hashes : List (List Nat)) : Int :=
  vcs_loop buffer size count threshold hashes 0 0

-- validate_single_signing, poa.c lines 139-160, over the same input
-- lock-hash sequence.
def validate_single_signing (identity : List Nat) (size : Nat) : List (List Nat) → Int
  | [] => ERROR_ENCODING
  | hash :: rest =>
    if List.take size hash = List.take size identity then CKB_SUCCESS
    else validate_single_signing identity size rest

-- One type-script read (`ckb_load_cell_by_field` with CKB_CELL_FIELD_TYPE)
-- for a cell: the cell has no type script (CKB_ITEM_MISSING), or it has one
-- whose full encoding is the given byte list (CKB_SUCCESS, with the syscall
-- reporting the full length), or the read fails with some other code.
inductive TypeRead where
  | missing
  | ok (script : List Nat)
  | err (code : Int)
deriving DecidableEq

-- type_id_script_prefix, poa.c lines 162-167 (renamed; the byte values are
-- transcribed verbatim).
def type_id_script_head : List Nat :=
  [0x55, 0x00, 0x00, 0x00, 0x10, 0x00, 0x00, 0x00, 0x30, 0x00, 0x00,
   0x00, 0x31, 0x00, 0x00, 0x00, 0x00, 0x00, 0x00, 0x00, 0x00, 0x00,
   0x00, 0x00, 0x00, 0x00, 0x00, 0x00, 0x00, 0x00, 0x00, 0x00, 0x00,
   0x00, 0x00, 0x00, 0x00, 0x00, 0x00, 0x00, 0x00, 0x54, 0x59, 0x50,
   0x45, 0x5f, 0x49, 0x44, 0x01, 0x20, 0x00, 0x00, 0x00]

-- The match test of poa.c line 183-184: the loaded length must be exactly 85,
-- the first 53 bytes must equal the type-id script head, and the last 32
-- bytes must equal the target type id.
def poa_type_matches (type_id script : List Nat) : Bool :=
  (script.length == 85) && (script.take 53 == type_id_script_head) &&
    ((script.drop 53).take 32 == List.take 32 type_id)

-- The return path after the scan loop of look_for_poa_cell, poa.c lines
-- 200-204: `found_index == SIZE_MAX` (here `none`) means not found.
def lfp_finish : Option Nat → Int × Option Nat
  | none => (CKB_INDEX_OUT_OF_BOUND, none)
  | some i => (CKB_SUCCESS, some i)

-- The scan loop of look_for_poa_cell, poa.c lines 170-199.  The switch on the
-- read result: CKB_ITEM_MISSING continues with the next index; CKB_SUCCESS
-- applies the match test (aborting with ERROR_ENCODING on a second match);
-- every other code (the `default:` case, which is also how the loop ends at
-- CKB_INDEX_OUT_OF_BOUND past the last cell, here the list end) sets
-- `running = 0`, i.e. stops the scan and falls through to the return path.
def lfp_go (type_id : List Nat) : List TypeRead → Nat → Option Nat → Int × Option Nat
  | [], _, found => lfp_finish found
  | TypeRead.missing :: rest, cur, found => lfp_go type_id rest (cur + 1) found
  | TypeRead.ok s :: rest, cur, found =>
    if poa_type_matches type_id s then
      match found with
      | some _ => (ERROR_ENCODING, none)
      | none => lfp_go type_id rest (cur + 1) (some cur)
    else lfp_go type_id rest (cur + 1) found
  | TypeRead.err _ :: _, _, found => lfp_finish found

-- look_for_poa_cell, poa.c lines 169-205, over the list of per-cell
-- type-script reads of one transaction side.  The `Option Nat` component is
-- the `*index` output, meaningful when the `Int` component is CKB_SUCCESS.
def look_for_poa_cell (type_id : List Nat) (cells : List TypeRead) : Int × Option Nat :=
  lfp_go type_id cells 0 none

-- The four fields of a 22-byte PoA data cell, poa.c lines 309-321 (the
-- last_*/current_* locals of main).
structure RoundState where
  round_initial_subtime : Nat
  subblock_subtime : Nat
  subblock_index : Nat
  aggregator_index : Nat
deriving DecidableEq

def decode_round_state (b : List Nat) : RoundState :=
  { round_initial_subtime := u64le b 0
    subblock_subtime := u64le b 8
    subblock_index := u32le b 16
    aggregator_index := u16le b 20 }

-- The since flag-and-magnitude checks of main, poa.c lines 340-355.
-- 0x40 = 64 is the "absolute timestamp" top byte; 0 is "absolute block
-- number"; 0x00FFFFFFFFFFFFFF = 72057594037927935 masks the 56-bit magnitude.
def mode_a_since_check (uses_seconds : Bool) (since current_subblock_subtime : Nat) : Int :=
  if uses_seconds then
    if since >>> 56 ≠ 64 then ERROR_ENCODING
    else if current_subblock_subtime ≠ (since &&& 72057594037927935) then ERROR_ENCODING
    else CKB_SUCCESS
  else
    if since >>> 56 ≠ 0 then ERROR_ENCODING
    else if current_subblock_subtime ≠ (since &&& 72057594037927935) then ERROR_ENCODING
    else CKB_SUCCESS

-- The `steps` computation of main, poa.c lines 392-398.  All operands are
-- cast to uint64_t; the subtraction can wrap when last_aggregator_index
-- exceeds current_aggregator_index + aggregator_number, so it is modelled as
-- addition of 2^64 followed by reduction mod 2^64.
def mode_a_steps_raw (setup : PoASetup) (last cur : RoundState) : Nat :=
  (cur.aggregator_index + setup.aggregator_number + 18446744073709551616 -
      last.aggregator_index) % 18446744073709551616 % setup.aggregator_number

def mode_a_steps (setup : PoASetup) (last cur : RoundState) : Nat :=
  if mode_a_steps_raw setup last cur = 0 then setup.aggregator_number
  else mode_a_steps_raw setup last cur

-- The two-mode transition check of main, poa.c lines 362-404, taking the
-- already-masked 56-bit `since` magnitude.  uint64_t additions and the
-- uint32_t increment `last_block_index + 1` wrap and are reduced explicitly.
def mode_a_transition (setup : PoASetup) (last cur : RoundState) (since : Nat) : Int :=
  if since < (last.round_initial_subtime + setup.subblock_intervals) % 18446744073709551616 then
    if cur.round_initial_subtime ≠ last.round_initial_subtime then ERROR_ENCODING
    else if cur.subblock_subtime < last.subblock_subtime then ERROR_ENCODING
    else if cur.aggregator_index ≠ last.aggregator_index then ERROR_ENCODING
    else if cur.subblock_index ≠ (last.subblock_index + 1) % 4294967296 ∨
        setup.subblocks_per_interval ≤ cur.subblock_index then ERROR_ENCODING
    else CKB_SUCCESS
  else
    if cur.round_initial_subtime ≠ cur.subblock_subtime then ERROR_ENCODING
    else if cur.subblock_index ≠ 0 then ERROR_ENCODING
    else if since < (mode_a_steps setup last cur * setup.subblock_intervals +
        last.round_initial_subtime) % 18446744073709551616 then ERROR_ENCODING
    else CKB_SUCCESS

-- One transaction cell as seen by this script: its type-script read result,
-- its data payload, and (meaningful for input cells) its lock script hash.
structure Cell where
  typeRead : TypeRead
  data : List Nat
  lockHash : List Nat
deriving DecidableEq

def emptyCell : Cell := { typeRead := TypeRead.missing, data := [], lockHash := [] }

def cellTypes (cells : List Cell) : List TypeRead := cells.map Cell.typeRead

def lockHashes (cells : List Cell) : List (List Nat) := cells.map Cell.lockHash

-- `ckb_load_cell(NULL, &len, 0, index, source)` used only for its return
-- code: CKB_INDEX_OUT_OF_BOUND when the index is past the last cell of the
-- source, CKB_SUCCESS otherwise.
def ckb_load_cell_ret (cell_count index : Nat) : Int :=
  if cell_count ≤ index then CKB_INDEX_OUT_OF_BOUND else CKB_SUCCESS

-- The transaction environment supplied by the CKB host to one execution of
-- the lock script: the sizes of the script's own input/output groups, the
-- script's args bytes (the molecule-encoded script is abstracted by the args
-- byte string it carries), all dep/input/output cells, and the 64-bit since
-- field of group input 0.
structure Env where
  group_input_count : Nat
  group_output_count : Nat
  script_args : List Nat
  cell_deps : List Cell
  inputs : List Cell
  outputs : List Cell
  since : Nat
deriving DecidableEq

-- Mode A of main after the PoA data cells are located and loaded,
-- poa.c lines 308-409: decode both 22-byte records, range-check the output
-- aggregator index, load and check since (`ckb_load_input_by_field` on group
-- input 0 returns CKB_INDEX_OUT_OF_BOUND when the group is empty, and always
-- yields 8 bytes otherwise, so the `len != 8` check cannot fire), run the
-- transition check on the masked magnitude, then require the due
-- aggregator's signature.
def mode_a_checks (setup : PoASetup) (last cur : RoundState) (env : Env) : Int :=
  if setup.aggregator_number ≤ cur.aggregator_index then ERROR_ENCODING
  else if env.group_input_count = 0 then CKB_INDEX_OUT_OF_BOUND
  else if mode_a_since_check setup.interval_uses_seconds env.since cur.subblock_subtime ≠
      CKB_SUCCESS then
    mode_a_since_check setup.interval_uses_seconds env.since cur.subblock_subtime
  else if mode_a_transition setup last cur (env.since &&& 72057594037927935) ≠ CKB_SUCCESS then
    mode_a_transition setup last cur (env.since &&& 72057594037927935)
  else
    validate_single_signing
      (identityAt setup.identities setup.identity_size cur.aggregator_index)
      setup.identity_size (lockHashes env.inputs)

-- Mode A cell location and loading, poa.c lines 251-306: load the dep PoA
-- setup cell's data (`ckb_load_cell_data` reports the full data length, so
-- data longer than the 16384-byte buffer fails the length check), parse it,
-- then locate and load the 22-byte input and output PoA data cells.
def mode_a_body (env : Env) (dep_index : Nat) : Int :=
  if POA_BUFFER_SIZE < ((env.cell_deps.getD dep_index emptyCell).data).length then ERROR_ENCODING
  else
    match parse_poa_setup (env.cell_deps.getD dep_index emptyCell).data with
    | Except.error e => e
    | Except.ok setup =>
      match look_for_poa_cell (List.take 32 (List.drop 32 env.script_args))
          (cellTypes env.inputs) with
      | (ret1, idx1) =>
        if ret1 ≠ CKB_SUCCESS then ret1
        else if ((env.inputs.getD (idx1.getD 0) emptyCell).data).length ≠ 22 then ERROR_ENCODING
        else
          match look_for_poa_cell (List.take 32 (List.drop 32 env.script_args))
              (cellTypes env.outputs) with
          | (ret2, idx2) =>
            if ret2 ≠ CKB_SUCCESS then ret2
            else if ((env.outputs.getD (idx2.getD 0) emptyCell).data).length ≠ 22 then
              ERROR_ENCODING
            else
              mode_a_checks setup
                (decode_round_state (env.inputs.getD (idx1.getD 0) emptyCell).data)
                (decode_round_state (env.outputs.getD (idx2.getD 0) emptyCell).data)
                env

-- Mode B (PoA consensus mode), poa.c lines 411-463: locate and parse the old
-- setup on the input side and the new setup on the output side (the new
-- setup's content is not otherwise used), then require the old threshold.
def mode_b_body (env : Env) : Int :=
  match look_for_poa_cell (List.take 32 env.script_args) (cellTypes env.inputs) with
  | (ret1, idx1) =>
    if ret1 ≠ CKB_SUCCESS then ret1
    else if POA_BUFFER_SIZE < ((env.inputs.getD (idx1.getD 0) emptyCell).data).length then
      ERROR_ENCODING
    else
      match parse_poa_setup (env.inputs.getD (idx1.getD 0) emptyCell).data with
      | Except.error e => e
      | Except.ok setup =>
        match look_for_poa_cell (List.take 32 env.script_args) (cellTypes env.outputs) with
        | (ret2, idx2) =>
          if ret2 ≠ CKB_SUCCESS then ret2
          else if POA_BUFFER_SIZE < ((env.outputs.getD (idx2.getD 0) emptyCell).data).length then
            ERROR_ENCODING
          else
            match parse_poa_setup (env.outputs.getD (idx2.getD 0) emptyCell).data with
            | Except.error e => e
            | Except.ok _ =>
              validate_consensus_signing setup.identities setup.identity_size
                setup.aggregator_number setup.aggregator_change_threshold
                (lockHashes env.inputs)

-- main, poa.c lines 207-463.  The first two checks load cell index 1 of the
-- script's own input and output groups and reject unless the read reports
-- CKB_INDEX_OUT_OF_BOUND; then the script args must be 64 bytes; then the
-- mode is selected by whether a cell tagged with the first 32 args bytes
-- exists among the cell deps.
def poa_main (env : Env) : Int :=
  if ckb_load_cell_ret env.group_input_count 1 ≠ CKB_INDEX_OUT_OF_BOUND then ERROR_TRANSACTION
  else if ckb_load_cell_ret env.group_output_count 1 ≠ CKB_INDEX_OUT_OF_BOUND then
    ERROR_TRANSACTION
  else if env.script_args.length ≠ 64 then ERROR_ENCODING
  else
    match look_for_poa_cell (List.take 32 env.script_args) (cellTypes env.cell_deps) with
    | (ret, idx) =>
      if ret ≠ CKB_INDEX_OUT_OF_BOUND ∧ ret ≠ CKB_SUCCESS then ret
      else if ret = CKB_SUCCESS then mode_a_body env (idx.getD 0)
      else mode_b_body env

-- Concrete transaction used for the unchecked-previous-aggregator-index
-- scenario: aggregator_number = 3, previous aggregator index = 3 (out of
-- range), next aggregator index = 1.
def argA : List Nat := List.replicate 32 7

def argB : List Nat := List.replicate 32 9

def setup9_data : List Nat := [0, 1, 3, 2, 100, 0, 0, 0, 5, 0, 0, 0, 170, 187, 204]

def prev9_data : List Nat :=
  [232, 3, 0, 0, 0, 0, 0, 0, 232, 3, 0, 0, 0, 0, 0, 0, 0, 0, 0, 0, 3, 0]

def cur9_data : List Nat :=
  [76, 4, 0, 0, 0, 0, 0, 0, 76, 4, 0, 0, 0, 0, 0, 0, 0, 0, 0, 0, 1, 0]

def env9 : Env :=
  { group_input_count := 1
    group_output_count := 1
    script_args := argA ++ argB
    cell_deps := [{ typeRead := TypeRead.ok (type_id_script_head ++ argA),
                    data := setup9_data, lockHash := [] }]
    inputs := [{ typeRead := TypeRead.ok (type_id_script_head ++ argB),
                 data := prev9_data, lockHash := List.replicate 32 187 }]
    outputs := [{ typeRead := TypeRead.ok (type_id_script_head ++ argB),
                  data := cur9_data, lockHash := [] }]
    since := 1100 }

-- With a zero threshold and no wrap of the 8-bit count, the comparison
-- after the increment can never hit 0, so the scan falls off the end of the
-- inputs and fails.  At most one credit happens per input, so the bound
-- `found + hashes.length <= 255` keeps the count below the wrap throughout.
theorem vcs_loop_zero_no_wrap (buffer : List Nat) (size count : Nat) :
    ∀ (hashes : List (List Nat)) (mask found : Nat), found + hashes.length ≤ 255 →
      vcs_loop buffer size count 0 hashes mask found = ERROR_ENCODING := by
  intro hashes
  induction hashes with
  | nil => intro mask found _; rfl
  | cons hash rest ih =>
    intro mask found hbound
    simp only [List.length_cons] at hbound
    rw [vcs_loop]
    by_cases hfi : find_uncredited hash buffer size mask 0 count < count
    · have hmod : (found + 1) % 256 = found + 1 := Nat.mod_eq_of_lt (by omega)
      rw [if_pos hfi, if_neg (by omega), hmod]
      exact ih _ _ (by omega)
    · rw [if_neg hfi]
      exact ih _ _ (by omega)

/-- C1: the de-duplication invariant fails on the code.  With the 33 one-byte
identities 0..32 and change threshold 2, a transaction whose two inputs both
match identity index 32 — and, as the filter conjunct shows, match no other
configured identity — is accepted: the mask write `1 << (32 % 64)` is a
32-bit int shift that sets bit 0 of the mask word instead of bit 32, so
identity 32 is never marked as credited, both inputs credit it, and the
count reaches the threshold.  The claim requires this transaction to be
rejected with the count stuck at 1. -/
theorem claim1_dedup_violated :
    validate_consensus_signing (List.range 33) 1 33 2 [[32], [32]] = CKB_SUCCESS ∧
    (List.range 33).filter
      (fun i => List.take 1 [(32 : Nat)] == identityAt (List.range 33) 1 i) = [32] := by
  refine ⟨by decide, by decide⟩

/-- C10 counterexample: with aggregator_change_threshold = 0 the check does
NOT reject every transaction: with 33 one-byte identities (so that the
broken 32-bit mask write never marks identity index 32 as credited), 256
inputs all matching identity 32 are credited 256 times, the 8-bit count
wraps from 255 to 0 = threshold right after an increment, and the check
accepts. -/
theorem claim10_zero_threshold_counterexample :
    validate_consensus_signing (List.range 33) 1 33 0 (List.replicate 256 [32]) =
      CKB_SUCCESS := by
  decide

/-- C10 amended: with aggregator_change_threshold = 0,
validate_consensus_signing rejects every transaction with at most 255 input
cells (whatever the configuration and however many identities the inputs
match), because the count is compared to the threshold only after being
incremented, at most one credit happens per input, and so the 8-bit count
cannot wrap back to 0. -/
theorem claim10_zero_threshold_amended (buffer : List Nat) (size count : Nat)
    (hashes : List (List Nat)) (h : hashes.length ≤ 255) :
    validate_consensus_signing buffer size count 0 hashes = ERROR_ENCODING :=
  vcs_loop_zero_no_wrap buffer size count hashes 0 0 (by omega)

/-- C10 witness: the amended theorem instantiated at a one-identity
configuration with a single matching input. -/
theorem claim10_zero_threshold_amended_witness :
    validate_consensus_signing [0] 1 1 0 [[0]] = ERROR_ENCODING :=
  claim10_zero_threshold_amended [0] 1 1 [[0]] (by decide)

/-- C8: validate_single_signing accepts exactly when some input lock hash
equals the target identity on its first identity_size bytes, and rejects with
ERROR_ENCODING exactly when no input matches by the end of the scan. -/
theorem claim8_single_signing (identity : List Nat) (size : Nat)
    (hashes : List (List Nat)) :
    (validate_single_signing identity size hashes = CKB_SUCCESS ↔
      ∃ h ∈ hashes, List.take size h = List.take size identity) ∧
    (validate_single_signing identity size hashes = ERROR_ENCODING ↔
      ¬ ∃ h ∈ hashes, List.take size h = List.take size identity) := by
  induction hashes with
  | nil => simp [validate_single_signing, CKB_SUCCESS, ERROR_ENCODING]
  | cons hash rest ih =>
    by_cases hm : List.take size hash = List.take size identity
    · constructor
      · simp [validate_single_signing, hm]
      · simp [validate_single_signing, hm, CKB_SUCCESS, ERROR_ENCODING]
    · constructor
      · rw [validate_single_signing, if_neg hm, ih.1]
        simp [hm]
      · rw [validate_single_signing, if_neg hm, ih.2]
        simp [hm]

/-- C2 counterexample: a read failure other than item-missing is NOT
propagated to the caller.  A scan whose only cell read fails with code -7
returns CKB_INDEX_OUT_OF_BOUND ("not found"), and a scan that found a match
before a failing read returns CKB_SUCCESS with that match — contradicting the
claim that such failures are propagated as a fatal error and never surface as
"not found" or as a successful match. -/
theorem claim2_counterexample :
    look_for_poa_cell (List.replicate 32 0) [TypeRead.err (-7)] =
      (CKB_INDEX_OUT_OF_BOUND, none) ∧
    look_for_poa_cell (List.replicate 32 0)
      [TypeRead.ok (type_id_script_head ++ List.replicate 32 0), TypeRead.err (-7)] =
      (CKB_SUCCESS, some 0) ∧
    CKB_INDEX_OUT_OF_BOUND ≠ (-7 : Int) ∧ CKB_SUCCESS ≠ (-7 : Int) := by
  refine ⟨by decide, by decide, by decide, by decide⟩

/-- C2 amended: an item-missing read is skipped and the scan continues with
the next cell; any other read failure stops the scan immediately (the cells
after it are never examined), after which the call returns the
duplicate-checked index found so far as CKB_SUCCESS, or
CKB_INDEX_OUT_OF_BOUND ("not found") when none was found — the failing read's
code itself is never returned. -/
theorem claim2_amended :
    (∀ (type_id : List Nat) (code : Int) (rest : List TypeRead) (cur : Nat)
        (found : Option Nat),
      lfp_go type_id (TypeRead.err code :: rest) cur found = lfp_finish found) ∧
    (∀ (type_id : List Nat) (rest : List TypeRead) (cur : Nat) (found : Option Nat),
      lfp_go type_id (TypeRead.missing :: rest) cur found =
        lfp_go type_id rest (cur + 1) found) ∧
    (∀ found : Option Nat, (lfp_finish found).1 = CKB_SUCCESS ∨
      (lfp_finish found).1 = CKB_INDEX_OUT_OF_BOUND) := by
  refine ⟨fun _ _ _ _ _ => rfl, fun _ _ _ _ => rfl, fun found => ?_⟩
  cases found with
  | none => right; rfl
  | some i => left; rfl

/-- C6: parse_poa_setup fails with ERROR_ENCODING exactly when the buffer is
shorter than 12 bytes, or the declared identity size exceeds 32, or the
change threshold exceeds the aggregator count, or the length differs from
12 + identity_size * aggregator_count; otherwise it succeeds with the §3
little-endian field layout. -/
theorem claim6_parse_poa_setup (d : List Nat) :
    parse_poa_setup d =
      if d.length < 12 ∨ 32 < d.getD 1 0 ∨ d.getD 2 0 < d.getD 3 0 ∨
          d.length ≠ 12 + d.getD 1 0 * d.getD 2 0 then
        Except.error ERROR_ENCODING
      else
        Except.ok
          { interval_uses_seconds := (d.getD 0 0 &&& 1) == 1
            identity_size := d.getD 1 0
            aggregator_number := d.getD 2 0
            aggregator_change_threshold := d.getD 3 0
            subblock_intervals := d.getD 4 0 + 256 * d.getD 5 0 + 65536 * d.getD 6 0 +
              16777216 * d.getD 7 0
            subblocks_per_interval := d.getD 8 0 + 256 * d.getD 9 0 + 65536 * d.getD 10 0 +
              16777216 * d.getD 11 0
            identities := d.drop 12 } := by
  rw [parse_poa_setup]
  by_cases h1 : d.length < 12
  · rw [if_pos h1, if_pos (Or.inl h1)]
  · rw [if_neg h1]
    by_cases h2 : IDENTITY_SIZE < d.getD 1 0
    · rw [if_pos h2, if_pos (Or.inr (Or.inl (show 32 < d.getD 1 0 from h2)))]
    · rw [if_neg h2]
      by_cases h3 : d.getD 2 0 < d.getD 3 0
      · rw [if_pos h3, if_pos (Or.inr (Or.inr (Or.inl h3)))]
      · rw [if_neg h3]
        by_cases h4 : d.length ≠ 12 + d.getD 1 0 * d.getD 2 0
        · rw [if_pos h4, if_pos (Or.inr (Or.inr (Or.inr h4)))]
        · have h2x : ¬ 32 < d.getD 1 0 := h2
          rw [if_neg h4, if_neg (show ¬ (d.length < 12 ∨ 32 < d.getD 1 0 ∨
            d.getD 2 0 < d.getD 3 0 ∨ d.length ≠ 12 + d.getD 1 0 * d.getD 2 0) by omega)]
          rfl

/-- C3: in the Mode A rollover branch (since at or past
prev.round_initial_time + subblock_interval), acceptance requires
since >= prev.round_initial_time + steps * subblock_interval, where steps is
((next.aggregator_index + aggregator_count) - prev.aggregator_index) mod
aggregator_count with 0 replaced by aggregator_count; and concretely, with
aggregator_count = 3 and a rollover from aggregator 2 back to aggregator 2
starting at round time 1000 with interval 100, steps is 3 (not 0): the
transition rejects at since 1100 and 1299 and accepts at 1300. -/
theorem claim3_rollover_steps :
    (∀ (setup : PoASetup) (last cur : RoundState) (since : Nat),
      0 < setup.aggregator_number → setup.aggregator_number < 256 →
      last.aggregator_index < 65536 → cur.aggregator_index < 65536 →
      last.aggregator_index ≤ cur.aggregator_index + setup.aggregator_number →
      last.round_initial_subtime + setup.aggregator_number * setup.subblock_intervals <
        18446744073709551616 →
      last.round_initial_subtime + setup.subblock_intervals ≤ since →
      mode_a_transition setup last cur since = CKB_SUCCESS →
      last.round_initial_subtime +
        (if (cur.aggregator_index + setup.aggregator_number - last.aggregator_index) %
              setup.aggregator_number = 0 then
          setup.aggregator_number
         else (cur.aggregator_index + setup.aggregator_number - last.aggregator_index) %
              setup.aggregator_number) * setup.subblock_intervals ≤ since) ∧
    mode_a_steps ⟨false, 1, 3, 2, 100, 5, [170, 187, 204]⟩ ⟨1000, 1000, 0, 2⟩
      ⟨1300, 1300, 0, 2⟩ = 3 ∧
    mode_a_transition ⟨false, 1, 3, 2, 100, 5, [170, 187, 204]⟩ ⟨1000, 1000, 0, 2⟩
      ⟨1300, 1300, 0, 2⟩ 1100 = ERROR_ENCODING ∧
    mode_a_transition ⟨false, 1, 3, 2, 100, 5, [170, 187, 204]⟩ ⟨1000, 1000, 0, 2⟩
      ⟨1300, 1300, 0, 2⟩ 1299 = ERROR_ENCODING ∧
    mode_a_transition ⟨false, 1, 3, 2, 100, 5, [170, 187, 204]⟩ ⟨1000, 1000, 0, 2⟩
      ⟨1300, 1300, 0, 2⟩ 1300 = CKB_SUCCESS := by
  refine ⟨?_, by decide, by decide, by decide, by decide⟩
  intro setup last cur since hcount hcount2 hlai hcai hile hw hb hsucc
  have hintle : setup.subblock_intervals ≤
      setup.aggregator_number * setup.subblock_intervals :=
    Nat.le_mul_of_pos_left _ hcount
  have hmod : (last.round_initial_subtime + setup.subblock_intervals) %
      18446744073709551616 = last.round_initial_subtime + setup.subblock_intervals :=
    Nat.mod_eq_of_lt (by omega)
  rw [mode_a_transition, hmod, if_neg (by omega)] at hsucc
  have hraw : mode_a_steps_raw setup last cur =
      (cur.aggregator_index + setup.aggregator_number - last.aggregator_index) %
        setup.aggregator_number := by
    rw [mode_a_steps_raw]
    congr 1
    omega
  have hsteps_le : mode_a_steps setup last cur ≤ setup.aggregator_number := by
    rw [mode_a_steps]
    by_cases h0 : mode_a_steps_raw setup last cur = 0
    · rw [if_pos h0]
    · rw [if_neg h0, hraw]
      exact Nat.le_of_lt (Nat.mod_lt _ hcount)
  have hmod2 : (mode_a_steps setup last cur * setup.subblock_intervals +
      last.round_initial_subtime) % 18446744073709551616 =
      mode_a_steps setup last cur * setup.subblock_intervals +
        last.round_initial_subtime := by
    apply Nat.mod_eq_of_lt
    have := Nat.mul_le_mul_right setup.subblock_intervals hsteps_le
    omega
  split_ifs at hsucc with h1 h2 h3
  · exact absurd hsucc (by decide)
  · exact absurd hsucc (by decide)
  · exact absurd hsucc (by decide)
  · rw [hmod2, mode_a_steps, hraw] at h3
    by_cases h0 : (cur.aggregator_index + setup.aggregator_number -
        last.aggregator_index) % setup.aggregator_number = 0
    · rw [if_pos h0] at h3 ⊢
      omega
    · rw [if_neg h0] at h3 ⊢
      omega

/-- C3 witness: the theorem instantiated at a concrete accepted rollover,
aggregator_count 3, from aggregator 2 to aggregator 1 (steps 2), round start
1000, interval 100, since 1200. -/
theorem claim3_rollover_steps_witness :
    (1000 : Nat) + (if ((1 : Nat) + 3 - 2) % 3 = 0 then 3 else ((1 : Nat) + 3 - 2) % 3) *
      100 ≤ 1200 :=
  claim3_rollover_steps.1 ⟨false, 1, 3, 2, 100, 5, [170, 187, 204]⟩ ⟨1000, 1000, 0, 2⟩
    ⟨1200, 1200, 0, 1⟩ 1200 (by decide) (by decide) (by decide) (by decide) (by decide)
    (by decide) (by decide) (by decide)

/-- C4 counterexample: the same-round continuation branch computes
prev.subblock_index + 1 in 32-bit arithmetic, so with
prev.subblock_index = 4294967295 the transition accepts
next.subblock_index = 0, although 0 is not the mathematical successor —
contradicting the claim that acceptance requires
next.subblock_index == prev.subblock_index + 1. -/
theorem claim4_counterexample :
    mode_a_transition ⟨false, 1, 1, 1, 100, 5, [170]⟩ ⟨1000, 1000, 4294967295, 0⟩
      ⟨1000, 1050, 0, 0⟩ 1050 = CKB_SUCCESS ∧
    (0 : Nat) ≠ 4294967295 + 1 := by
  refine ⟨by decide, by decide⟩

/-- C4 amended: in the same-round continuation branch (since below
prev.round_initial_time + subblock_interval, with that sum not wrapping
64-bit arithmetic), the transition accepts exactly when
next.round_initial_time = prev.round_initial_time, next.subblock_time >=
prev.subblock_time, next.aggregator_index = prev.aggregator_index,
next.subblock_index = (prev.subblock_index + 1) mod 2^32 (the increment is
32-bit), and next.subblock_index < subblocks_per_interval. -/
theorem claim4_same_round (setup : PoASetup) (last cur : RoundState) (since : Nat)
    (hw : last.round_initial_subtime + setup.subblock_intervals < 18446744073709551616)
    (hb : since < last.round_initial_subtime + setup.subblock_intervals) :
    mode_a_transition setup last cur since = CKB_SUCCESS ↔
      (cur.round_initial_subtime = last.round_initial_subtime ∧
       last.subblock_subtime ≤ cur.subblock_subtime ∧
       cur.aggregator_index = last.aggregator_index ∧
       cur.subblock_index = (last.subblock_index + 1) % 4294967296 ∧
       cur.subblock_index < setup.subblocks_per_interval) := by
  have hmod : (last.round_initial_subtime + setup.subblock_intervals) %
      18446744073709551616 = last.round_initial_subtime + setup.subblock_intervals :=
    Nat.mod_eq_of_lt hw
  rw [mode_a_transition, hmod, if_pos hb]
  split_ifs with h1 h2 h3 h4
  · exact iff_of_false (by decide) fun hc => h1 hc.1
  · exact iff_of_false (by decide) fun hc => absurd hc.2.1 (by omega)
  · exact iff_of_false (by decide) fun hc => h3 hc.2.2.1
  · rcases h4 with h4 | h4
    · exact iff_of_false (by decide) fun hc => h4 hc.2.2.2.1
    · exact iff_of_false (by decide) fun hc => absurd hc.2.2.2.2 (by omega)
  · push_neg at h1 h2 h3 h4
    exact iff_of_true rfl ⟨h1, h2, h3, h4.1, h4.2⟩

/-- C4 witness: the amended theorem instantiated at a concrete accepted
same-round step (indices 0 to 1, times 1000 to 1050, interval 100). -/
theorem claim4_same_round_witness :
    mode_a_transition ⟨false, 1, 1, 1, 100, 5, [170]⟩ ⟨1000, 1000, 0, 0⟩
      ⟨1000, 1050, 1, 0⟩ 1050 = CKB_SUCCESS ↔
      ((1000 : Nat) = 1000 ∧ (1000 : Nat) ≤ 1050 ∧ (0 : Nat) = 0 ∧
       (1 : Nat) = (0 + 1) % 4294967296 ∧ (1 : Nat) < 5) :=
  claim4_same_round ⟨false, 1, 1, 1, 100, 5, [170]⟩ ⟨1000, 1000, 0, 0⟩
    ⟨1000, 1050, 1, 0⟩ 1050 (by decide) (by decide)

/-- C5: whenever the Mode A since check succeeds, the top two bits of the
64-bit since value encode the lock mode matching uses_seconds (01, absolute
timestamp, when uses_seconds; 00, absolute block height, otherwise) and the
low 56-bit magnitude equals next.subblock_time exactly — so the check rejects
unless both hold. -/
theorem claim5_since_check (uses_seconds : Bool) (since st : Nat)
    (h : mode_a_since_check uses_seconds since st = CKB_SUCCESS) :
    (since >>> 62 = if uses_seconds then 1 else 0) ∧
      since % 72057594037927936 = st := by
  have hsplit : since >>> 62 = (since >>> 56) >>> 6 := by
    rw [← Nat.shiftRight_add]
  have hmask : since &&& 72057594037927935 = since % 72057594037927936 := by
    have : (72057594037927935 : Nat) = 2 ^ 56 - 1 := by norm_num
    rw [this, Nat.and_pow_two_sub_one_eq_mod]
  rw [mode_a_since_check] at h
  cases uses_seconds with
  | true =>
    rw [if_pos rfl] at h
    split_ifs at h with h1 h2
    · exact absurd h (by decide)
    · exact absurd h (by decide)
    · push_neg at h1 h2
      refine ⟨?_, by rw [← hmask, ← h2]⟩
      rw [hsplit, h1]
      decide
  | false =>
    rw [if_neg (by simp)] at h
    split_ifs at h with h1 h2
    · exact absurd h (by decide)
    · exact absurd h (by decide)
    · push_neg at h1 h2
      refine ⟨?_, by rw [← hmask, ← h2]⟩
      rw [hsplit, h1]
      decide

/-- C5 witness: the theorem instantiated at the accepted since value
0x40 * 2^56 + 123 (absolute timestamp mode, magnitude 123) with
next.subblock_time 123. -/
theorem claim5_since_check_witness :
    ((4611686018427388027 : Nat) >>> 62 = 1) ∧
      (4611686018427388027 : Nat) % 72057594037927936 = 123 :=
  claim5_since_check true 4611686018427388027 123 (by decide)

/-- C7: before mode dispatch, the validator rejects with ERROR_TRANSACTION
every transaction environment whose own authorization group contains more
than one input cell or more than one output cell, regardless of all other
transaction contents. -/
theorem claim7_single_group_cells (env : Env)
    (h : 2 ≤ env.group_input_count ∨ 2 ≤ env.group_output_count) :
    poa_main env = ERROR_TRANSACTION := by
  rcases h with h | h
  · have h1 : ckb_load_cell_ret env.group_input_count 1 ≠ CKB_INDEX_OUT_OF_BOUND := by
      rw [ckb_load_cell_ret, if_neg (by omega)]
      decide
    rw [poa_main, if_pos h1]
  · by_cases h1 : ckb_load_cell_ret env.group_input_count 1 ≠ CKB_INDEX_OUT_OF_BOUND
    · rw [poa_main, if_pos h1]
    · have h2 : ckb_load_cell_ret env.group_output_count 1 ≠ CKB_INDEX_OUT_OF_BOUND := by
        rw [ckb_load_cell_ret, if_neg (by omega)]
        decide
      rw [poa_main, if_neg h1, if_pos h2]

/-- C7 witness: a concrete transaction with two inputs in the validator's own
group is rejected with ERROR_TRANSACTION. -/
theorem claim7_single_group_cells_witness :
    poa_main { group_input_count := 2, group_output_count := 0, script_args := [],
               cell_deps := [], inputs := [], outputs := [], since := 0 } =
      ERROR_TRANSACTION :=
  claim7_single_group_cells _ (Or.inl (by decide))

/-- C9: the input-side (previous) RoundState's aggregator index is never
range-checked: in the concrete transaction env9 the configuration has
aggregator_number 3 (setup byte 2), the consumed PoA data cell declares
aggregator index 3 (out of range), and the validator nevertheless accepts via
the rollover branch, whose steps arithmetic reduces the unchecked value
modulo 3. -/
theorem claim9_prev_index_unchecked :
    poa_main env9 = CKB_SUCCESS ∧
    u16le (env9.inputs.getD 0 emptyCell).data 20 = 3 ∧
    (env9.cell_deps.getD 0 emptyCell).data.getD 2 0 = 3 := by
  refine ⟨by decide, by decide, by decide⟩
